import Mathlib

/-!
# Verification of the omero-isa import/export core

A shallow embedding, in Lean 4, of the data model and operations of the
`omero_isa` Python package (ISA JSON ↔ OMERO translation):

* `src/omero_isa/roi.py` — the ROI codec (`import_rois_from_json`);
* `src/omero_isa/isa_investigation_importer.py` — the import stack
  (`IsaInvestigationImporter`, `DatasetFactory`, `ImageFactory`,
  `MappedAnnotationFactory`);
* `src/omero_isa/isa_mapping.py` — the export mappers
  (`AbstractIsaMapper._create_isa_attributes`, `OmeroProjectMapper`,
  `OmeroDatasetMapper`);
* `src/omero_isa/isa_packer.py` — the export orchestration (`IsaPacker.pack`).

Modelling conventions:

* Python dicts are association lists (`List (String × α)`) with unique keys,
  insertion order preserved; `dictSet` mirrors Python dict assignment
  (update in place, else append), `dictGet` mirrors `dict.get`.
* Python exceptions become an explicit error type `PyErr`; `assert` failures
  are `PyErr.assertionError`, and the other exception kinds that the code can
  raise are distinguished so that `except AssertionError` handlers can be
  modelled faithfully.
* Persisting an entity against the OMERO update service is modelled by the
  entity value appearing in the function's result; a function that raises
  before building an entity cannot have persisted it.
* Python `str` values are Lean `String`s; the ASCII fragment of `str.lower`
  is modelled (the identifiers the code derives are ASCII).
* Numeric JSON scalars that the code merely passes through (shape
  coordinates, `rdouble` wrappers) are modelled as `Int`; none of the claims
  computes with them.
-/

set_option autoImplicit false

namespace OmeroIsa

/-! ## Association-list dictionaries (Python `dict` semantics) -/

/-- `dict.get k` / `k in d`: first (= unique) binding of `k`. -/
def dictGet {α : Type} (m : List (String × α)) (k : String) : Option α :=
  match m with
  | [] => none
  | (k', v) :: rest => if k' = k then some v else dictGet rest k

/-- `d[k] = v`: update the binding in place if the key exists (Python dicts
keep the original insertion position), else append. -/
def dictSet {α : Type} (m : List (String × α)) (k : String) (v : α) :
    List (String × α) :=
  match m with
  | [] => [(k, v)]
  | (k', v') :: rest => if k' = k then (k, v) :: rest else (k', v') :: dictSet rest k v

/-! ## Python string primitives -/

/-- ASCII fragment of Python `str.lower`, per character. -/
def pyLowerChar (c : Char) : Char :=
  if 65 ≤ c.toNat ∧ c.toNat ≤ 90 then Char.ofNat (c.toNat + 32) else c

/-- Python `str.lower` (ASCII fragment). -/
def pyLower (s : String) : String :=
  ⟨s.data.map pyLowerChar⟩

/-- `pat in s` on character lists: contiguous-substring containment. -/
def subIn (pat : List Char) : List Char → Bool
  | [] => pat.isEmpty
  | c :: rest => pat.isPrefixOf (c :: rest) || subIn pat rest

/-- Python `pat in k` for strings. -/
def strContains (k pat : String) : Bool :=
  subIn pat.data k.data

/-- One pass of Python `str.replace` on lists, with explicit fuel so that the
recursion is structural (the caller supplies `fuel = s.length`, which always
suffices: each step consumes at least one character). -/
def replFuel (pat repl : List Char) : Nat → List Char → List Char
  | _, [] => []
  | 0, l => l
  | fuel + 1, c :: cs =>
    if pat.isPrefixOf (c :: cs) then
      repl ++ replFuel pat repl fuel (cs.drop (pat.length - 1))
    else
      c :: replFuel pat repl fuel cs

/-- Python `s.replace(pat, repl)`: replace every non-overlapping occurrence,
left to right.  An empty pattern interleaves `repl` around every character,
as Python does. -/
def replaceAll (s pat repl : List Char) : List Char :=
  if pat.isEmpty then
    repl ++ s.flatMap (fun c => [c] ++ repl)
  else
    replFuel pat repl s.length s

/-- Python `s.replace(pat, repl)` on strings. -/
def strReplace (s pat repl : String) : String :=
  ⟨replaceAll s.data pat.data repl.data⟩

/-! ## Python exceptions

The distinct exception kinds the modelled code can raise.  Only
`assertionError` is caught by the `except AssertionError` handlers of
`_add_mapped_annotations`; every other kind propagates. -/

inductive PyErr where
  | assertionError
  | typeError
  | attributeError
  | keyError
  | valueError
  | unboundLocalError
deriving DecidableEq

/-! ## Identifier derivation (isa_mapping.py:303 and isa_mapping.py:472)

`self.obj.getName().lower().replace(" ", "-")` — the same expression derives
the assay identifier from a dataset name and the study identifier from a
project name. -/

def deriveIdentifier (name : String) : String :=
  strReplace (pyLower name) " " "-"

/-- Per-character action of `deriveIdentifier` (lowercase, then space→dash). -/
def lowerDashChar (c : Char) : Char :=
  if pyLowerChar c = ' ' then '-' else pyLowerChar c

/-! ## ROI codec (roi.py)

`import_rois_from_json` parses a JSON list of
`{roi_id, shapes: [{type, z, t, c, <geometry>}]}` entries and creates OMERO
`RoiI` records against a target image.  The embedding below mirrors the
function's control flow; persisting via
`update_service.saveAndReturnObject(roi)` is modelled by the ROI record
appearing in the first (persisted-records) component of the result, and the
Python return value is the second component. -/

/-- Geometry record constructed by the type-tag dispatch (`PolygonI` …
`LabelI`).  Coordinates are modelled as `Int` (the code wraps them in
`rdouble` without computing on them). -/
inductive Geom where
  | polygon (points : String)
  | rectangle (x y width height : Int)
  | ellipse (x y radiusX radiusY : Int)
  | line (x1 y1 x2 y2 : Int)
  | point (x y : Int)
  | label (x y : Int) (text : String)
deriving DecidableEq

/-- A constructed OMERO shape: geometry plus the plane coordinates set by
`setTheZ`/`setTheT`/`setTheC`. -/
structure OmeShape where
  geom : Geom
  theZ : Int
  theT : Int
  theC : Int
deriving DecidableEq

/-- One parsed shape dict.  `z`/`t`/`c` are nullable in the JSON (`none`
models JSON `null`); the geometry fields are modelled as always-present
record fields — the code reads only the fields of the matching type tag and
would raise `KeyError` on a field genuinely absent from the JSON, which none
of the claims exercises. -/
structure ShapeInfo where
  shapeType : String
  z : Option Int := none
  t : Option Int := none
  c : Option Int := none
  points : String := ""
  x : Int := 0
  y : Int := 0
  width : Int := 0
  height : Int := 0
  radiusX : Int := 0
  radiusY : Int := 0
  x1 : Int := 0
  y1 : Int := 0
  x2 : Int := 0
  y2 : Int := 0
  text : String := ""
deriving DecidableEq

/-- One parsed ROI dict (`roi_id` is present in the JSON but never read by
the import loop). -/
structure RoiData where
  roi_id : Int := 0
  shapes : List ShapeInfo
deriving DecidableEq

/-- Python `x or 0` on a nullable integer (`rint(shape_info["z"] or 0)`). -/
def pyOrZero : Option Int → Int
  | none => 0
  | some v => if v = 0 then 0 else v

/-- The `if shape_type == "PolygonI" … else: continue` dispatch
(roi.py:214-245): `none` models the `continue` for unrecognized type tags. -/
def shapeGeom (si : ShapeInfo) : Option Geom :=
  if si.shapeType = "PolygonI" then some (Geom.polygon si.points)
  else if si.shapeType = "RectangleI" then some (Geom.rectangle si.x si.y si.width si.height)
  else if si.shapeType = "EllipseI" then some (Geom.ellipse si.x si.y si.radiusX si.radiusY)
  else if si.shapeType = "LineI" then some (Geom.line si.x1 si.y1 si.x2 si.y2)
  else if si.shapeType = "PointI" then some (Geom.point si.x si.y)
  else if si.shapeType = "LabelI" then some (Geom.label si.x si.y si.text)
  else none

/-- Construct the OMERO shape for one shape dict: dispatch on the type tag,
then `setTheZ`/`setTheT`/`setTheC` with `rint(… or 0)` (roi.py:210-212,
247-249). -/
def buildShape (si : ShapeInfo) : Option OmeShape :=
  (shapeGeom si).map fun g =>
    { geom := g, theZ := pyOrZero si.z, theT := pyOrZero si.t, theC := pyOrZero si.c }

/-- An OMERO `RoiI` scoped to an image (`roi.setImage(image._obj)`) with the
shapes added by `roi.addShape`. -/
structure RoiRec where
  imageId : Nat
  shapes : List OmeShape
deriving DecidableEq

/-- The body of the outer loop before the save: build the ROI for one parsed
entry (unrecognized shape tags are skipped by `continue`). -/
def mkRoi (imageId : Nat) (rd : RoiData) : RoiRec :=
  { imageId := imageId, shapes := rd.shapes.filterMap buildShape }

/-- `import_rois_from_json` (roi.py:199-254) applied to the parsed ROI list.
The first component collects the records passed to
`saveAndReturnObject`; the second is the function's return value.  The
`return roi` statement at roi.py:254 sits INSIDE the `for roi_data in
roi_data_list` loop, so the loop body runs at most once: an empty list falls
through to the implicit `return None`, and a non-empty list saves and
returns the first entry only. -/
def import_rois_from_json (roiDataList : List RoiData) (imageId : Nat) :
    List RoiRec × Option RoiRec :=
  match roiDataList with
  | [] => ([], none)
  | rd :: _ =>
    let roi := mkRoi imageId rd
    ([roi], some roi)

/-! ## Image factory (isa_investigation_importer.py:293-394)

`ImageFactory.save` scans the DataFile's comments for `name`, `description`
and `roidata_filename`, resolves and checks the image file path, delegates
the binary upload to `import_and_tag_image` (an external subprocess
collaborator that returns an image handle or `None`), and — whenever a
`roidata_filename` comment was seen — checks the ROI file and calls
`import_rois_from_json` with whatever the upload returned.  The upload
collaborator's result is a parameter of the embedding (`upload`), and file
existence is an oracle `fileOk` over path strings. -/

/-- The parsed DataFile dict as `ImageFactory` reads it: the entries of its
`comments` array (each a `{name, value}` pair) and its `name` field (the
relative file path), `none` when the key is absent. -/
structure ImgData where
  comments : List (String × String)
  name : Option String := none
deriving DecidableEq

/-- The comment scan of `ImageFactory.save` (lines 357-366): a fold in list
order, so the LAST matching comment wins for each of the three keys.
Returns `(img_name, img_description, roidata_filename)`. -/
def extractImgMeta (cs : List (String × String)) : String × String × Option String :=
  cs.foldl
    (fun acc c =>
      if c.1 = "name" then (c.2, acc.2.1, acc.2.2)
      else if c.1 = "description" then (acc.1, c.2, acc.2.2)
      else if c.1 = "roidata_filename" then (acc.1, acc.2.1, some c.2)
      else acc)
    ("", "", none)

/-- Observable outcome of `ImageFactory.save`: the upload result, and — when
`import_rois_from_json` was invoked — the image handle it was invoked with
(`some upload`); `none` means the ROI import step was skipped. -/
structure ImageSaveOutcome where
  image : Option Nat
  roiImportImage : Option (Option Nat)
deriving DecidableEq

/-- `ImageFactory.save` (lines 334-393).  `fileOk` is the file-existence
oracle (applied to the DataFile path and to the ROI filename), `upload` the
result of the external `import_and_tag_image` collaborator.  Python raises
`ValueError` when the path field is absent or empty and `AssertionError`
when a referenced file does not exist; both fire before anything else
happens.  Note that the call to `import_rois_from_json` at lines 389-393 is
guarded only by `roidata_filename is not None` — the upload result is NOT
checked against `None` first. -/
def imageFactorySave (data : ImgData) (fileOk : String → Bool) (upload : Option Nat) :
    Except PyErr ImageSaveOutcome :=
  let meta := extractImgMeta data.comments
  match data.name with
  | none => .error .valueError
  | some filePath =>
    if filePath = "" then .error .valueError
    else if fileOk filePath = false then .error .assertionError
    else
      match meta.2.2 with
      | none => .ok { image := upload, roiImportImage := none }
      | some roiFile =>
        if fileOk roiFile = false then .error .assertionError
        else .ok { image := upload, roiImportImage := some upload }

/-! ## Dataset factory (isa_investigation_importer.py:399-529)

`DatasetFactory.save` requires the assay data to carry a `comments` list
(`assert comments is not None`), scans it for the first entry whose `name`
is `"identifier"` (`break` on the first match), and uses that entry's
`value` as the dataset display name.  When no entry matches, the local
`dataset_name` is never bound and line 519 raises `UnboundLocalError`.
Either failure occurs before `DatasetI()` is built, so no dataset is
persisted. -/

/-- One comment dict of an assay's `comments` array. -/
abbrev Cmt : Type := List (String × String)

/-- The slice of the parsed assay dict that `DatasetFactory.save` reads:
`data.get("comments", None)`. -/
structure AssayData where
  comments : Option (List Cmt) := none
deriving DecidableEq

/-- The comment scan of lines 512-516: value of the FIRST comment whose
`name` entry equals `"identifier"` (the inner `Option` is that comment's
`value`, which `comment.get("value")` may itself fail to find). -/
def findIdentifierValue : List Cmt → Option (Option String)
  | [] => none
  | c :: rest =>
    if dictGet c "name" = some "identifier" then some (dictGet c "value")
    else findIdentifierValue rest

/-- A persisted OMERO dataset record (`dataset.setName(rtypes.rstring(v))`;
`name` is `none` when the identifier comment had no `value` entry). -/
structure DatasetRec where
  name : Option String
deriving DecidableEq

/-- `DatasetFactory.save` (lines 493-529) up to and including the persist of
the dataset record.  (The subsequent annotation/image/link phases consume
the already-persisted dataset and are modelled where the relevant claims
need them.) -/
def datasetFactorySave (data : AssayData) : Except PyErr DatasetRec :=
  match data.comments with
  | none => .error .assertionError
  | some cs =>
    match findIdentifierValue cs with
    | none => .error .unboundLocalError
    | some v => .ok { name := v }

/-! ## Mapped-annotation factory (isa_investigation_importer.py:535-645)

Annotation decode.  `MappedAnnotationFactory.__init__` takes an arbitrary
dict-shaped fragment of the parsed ISA JSON tree, asserts that it carries a
`comments` entry whose first element is the
`{name: "omero_annotation_namespace", value: …}` anchor, and only then
builds the flat key→value mapping and the map-annotation object.  The
caller (`_add_mapped_annotations`) wraps each construction in
`try: … except AssertionError: pass`. -/

/-- JSON values as the decode path distinguishes them: scalars (modelled as
strings — the code stringifies every scalar with `str`), arrays and
mappings. -/
inductive FVal where
  | str (s : String)
  | list (items : List FVal)
  | dict (entries : List (String × FVal))

/-- A dict-shaped JSON fragment. -/
abbrev Frag : Type := List (String × FVal)

/-- Python `len(v)` for the three JSON shapes (string length, array length,
number of keys). -/
def pyLen : FVal → Nat
  | .str s => s.length
  | .list items => items.length
  | .dict entries => entries.length

/-- Python `v[0]`: first character of a string, first element of a list;
indexing a dict with the integer `0` raises `KeyError` (its keys are
strings), and `[0]` on an empty string/list raises `IndexError` — the
callers below only index after `assert len(v) >= 1`. -/
def pyIndex0 : FVal → Except PyErr FVal
  | .str s =>
    match s.data with
    | [] => .error .keyError
    | c :: _ => .ok (.str ⟨[c]⟩)
  | .list items =>
    match items with
    | [] => .error .keyError
    | v :: _ => .ok v
  | .dict _ => .error .keyError

/-- Python `v.get(k)`: only mappings have `.get`; on any other shape the
attribute lookup raises `AttributeError`. -/
def pyGetMethod (v : FVal) (k : String) : Except PyErr (Option FVal) :=
  match v with
  | .dict entries => .ok (dictGet entries k)
  | _ => .error .attributeError

/-- The first-comment anchor name (line 581). -/
def anchorName : String := "omero_annotation_namespace"

/-- The keys whose joint presence marks a nested dict as an ontology
sub-object (line 587). -/
def ontologySubKeys : List String := ["termAccession", "termSource", "annotationValue"]

/-- `dict.get` with a (non-`none`-able) fallback used where the subset check
has already guaranteed presence. -/
def dictGetD (m : List (String × FVal)) (k : String) : FVal :=
  (dictGet m k).getD (.str "")

/-- The mapping construction of lines 585-602: scalars pass through; nested
dicts containing all three ontology sub-keys expand into the three
`<key>_term*` entries; arrays (and dicts without the full ontology triple)
are skipped. -/
def mkMapping (data : Frag) : List (String × FVal) :=
  data.foldl
    (fun m kv =>
      match kv.2 with
      | .str s => dictSet m kv.1 (.str s)
      | .list _ => m
      | .dict d =>
        if ontologySubKeys.all (fun k => (dictGet d k).isSome) then
          dictSet
            (dictSet
              (dictSet m (kv.1 ++ "_term") (dictGetD d "annotationValue"))
              (kv.1 ++ "_term_accession") (dictGetD d "termAccession"))
            (kv.1 ++ "_term_source") (dictGetD d "termSource")
        else m)
    []

/-- The constructed map-annotation object: the namespace taken from the
anchor comment's `value` and the flat mapping (`MapAnnotationI` with
`setMapValue`/`setNs`). -/
structure MappedAnn where
  ns : FVal
  mapping : List (String × FVal)

/-- `MappedAnnotationFactory.__init__` (lines 565-604): the assertion chain
over the `comments` anchor, then the mapping construction.  Shapes the
assertions cannot handle raise non-`AssertionError` exceptions exactly where
Python does: `.get` on a non-dict first entry raises `AttributeError`, and
`data["comments"][0]` on a dict-shaped comments value raises `KeyError`. -/
def mkMappedAnnFactory (data : Frag) : Except PyErr MappedAnn :=
  match dictGet data "comments" with
  | none => .error .assertionError
  | some cv =>
    if pyLen cv = 0 then .error .assertionError
    else
      match pyIndex0 cv with
      | .error e => .error e
      | .ok c0 =>
        match pyGetMethod c0 "name" with
        | .error e => .error e
        | .ok nameVal =>
          match nameVal with
          | none => .error .assertionError
          | some nv =>
            match pyGetMethod c0 "value" with
            | .error e => .error e
            | .ok valueVal =>
              match valueVal with
              | none => .error .assertionError
              | some vv =>
                match nv with
                | .str n =>
                  if n = anchorName then
                    .ok { ns := vv, mapping := mkMapping data }
                  else .error .assertionError
                | _ => .error .assertionError

/-- One iteration of the `try: MappedAnnotationFactory(e); maf.save(…)
except AssertionError: pass` pattern of `_add_mapped_annotations`
(lines 214-252): a successful construction persists the annotation, an
`AssertionError` is swallowed (nothing persisted), and any other exception
propagates out of the importer. -/
def addMappedAnnStep (frag : Frag) : Except PyErr (List MappedAnn) :=
  match mkMappedAnnFactory frag with
  | .ok m => .ok [m]
  | .error .assertionError => .ok []
  | .error e => .error e

/-! ## Annotation-mapper encode (isa_mapping.py:132-217)

`AbstractIsaMapper._create_isa_attributes`, modelled per annotation type
(namespace).  Its inputs are the per-namespace configuration (namespace
string, default-value table, optional list of ontology field names) and
`annotation_data`, the list of key→value maps of the stored map annotations
sharing the namespace (`_annotation_data`, lines 228-242; values of OMERO
`NamedValue`s are strings). -/

/-- One stored map annotation's key→value dict. -/
abbrev Annot : Type := List (String × String)

/-- One entry of `isa_attribute_config` (e.g. isa_mapping.py:305-313,
425-490). -/
structure NsConfig where
  ns : String
  default_values : List (String × Option String)
  ontology_annotations : Option (List String) := none
deriving DecidableEq

/-- A value inside an `OntologyAnnotation` constructor call: plain string,
or a string wrapped into `OntologySource` (done for `term_source`,
lines 170-172). -/
inductive OntVal where
  | str (s : String)
  | source (s : String)
deriving DecidableEq

/-- The keyword parameters accepted by the isatools `OntologyAnnotation`
constructor (`term`, `term_source`, `term_accession`, `comments`, `id_`);
any other key in `OntologyAnnotation(**…)` raises `TypeError`. -/
def ontologyCtorKeys : List String := ["term", "term_source", "term_accession", "comments", "id_"]

/-- Lines 166-168 for a single ontology field `ont`: the grouped dict
`{k.replace(f"{ont}_", ''): v for k, v in d.items() if ont in k}` (a dict
comprehension, so later stripped keys overwrite earlier ones) and the
residual dict `{k: v for k, v in d.items() if ont not in k}`.  Membership is
SUBSTRING containment, and the replacement removes every occurrence of
`"<ont>_"` from the key. -/
def stripOnt (ont : String) (d : Annot) : List (String × String) × Annot :=
  ((d.filter fun kv => strContains kv.1 ont).foldl
      (fun m kv => dictSet m (strReplace kv.1 (ont ++ "_") "") kv.2) [],
    d.filter fun kv => !(strContains kv.1 ont))

/-- Lines 170-173: wrap a present `term_source` value into an
`OntologySource`, then call `OntologyAnnotation(**grp)` — which raises
`TypeError` whenever the group contains a key that is not a constructor
parameter. -/
def mkOntologyAnnot (grp : List (String × String)) : Except PyErr (List (String × OntVal)) :=
  if grp.all (fun kv => ontologyCtorKeys.contains kv.1) then
    .ok (grp.map fun kv =>
      if kv.1 = "term_source" then (kv.1, OntVal.source kv.2) else (kv.1, OntVal.str kv.2))
  else .error .typeError

/-- The per-annotation `ontology_annotation_attribute` dict: ontology field
name → constructed `OntologyAnnotation`. -/
abbrev OntAttr : Type := List (String × List (String × OntVal))

/-- The inner `for ont in ontology_config` loop (lines 164-173) over one
annotation dict: each field strips its keys out of the dict in sequence. -/
def extractOntForAnnot (onts : List String) (d : Annot) : Except PyErr (OntAttr × Annot) :=
  match onts with
  | [] => .ok ([], d)
  | ont :: rest =>
    let pr := stripOnt ont d
    match mkOntologyAnnot pr.1 with
    | .error e => .error e
    | .ok oa =>
      match extractOntForAnnot rest pr.2 with
      | .error e => .error e
      | .ok res => .ok ((ont, oa) :: res.1, res.2)

/-- The outer `for i in range(len(annotation_data))` loop (lines 160-175):
collects `ontology_annotation_attributes` and the in-place-filtered
`annotation_data` (the later scalar pass reads the filtered dicts). -/
def extractOntAll (onts : List String) : List Annot → Except PyErr (List OntAttr × List Annot)
  | [] => .ok ([], [])
  | d :: rest =>
    match extractOntForAnnot onts d with
    | .error e => .error e
    | .ok pr =>
      match extractOntAll onts rest with
      | .error e => .error e
      | .ok res => .ok (pr.1 :: res.1, pr.2 :: res.2)

/-- `ontology_config is None`: the loop still appends one empty attribute
dict per annotation and leaves the dicts untouched. -/
def extractAll (ontCfg : Option (List String)) (ad : List Annot) :
    Except PyErr (List OntAttr × List Annot) :=
  match ontCfg with
  | none => .ok (ad.map fun _ => [], ad)
  | some onts => extractOntAll onts ad

/-- `annotation.get(key, config["default_values"][key])` (line 197). -/
def pyGetOr (a : Annot) (k : String) (dflt : Option String) : Option String :=
  match dictGet a k with
  | some v => some v
  | none => dflt

/-- The scalar pass for one annotation (lines 196-199): fold the default
table over the shared accumulator `values_to_set` — note the accumulator is
NOT reset between annotations in the source. -/
def scalarStep (defaults : List (String × Option String)) (a : Annot)
    (vts : List (String × String)) : List (String × String) :=
  defaults.foldl
    (fun m kd =>
      match pyGetOr a kd.1 kd.2 with
      | none => m
      | some v => dictSet m kd.1 v)
    vts

/-- The `for annotation in annotation_data` loop (lines 195-203): append a
copy of the accumulator after each annotation that leaves it non-empty. -/
def buildValuesGo (defaults : List (String × Option String))
    (vts : List (String × String)) (vs : List (List (String × String))) :
    List Annot → List (List (String × String))
  | [] => vs
  | a :: rest =>
    let vts' := scalarStep defaults a vts
    buildValuesGo defaults vts' (if vts' = [] then vs else vs ++ [vts']) rest

/-- A value inside a produced parameter-set entry: a scalar string, or the
synthetic comment list installed at line 216. -/
inductive IVal where
  | s (v : String)
  | cmts (l : List (String × String))
deriving DecidableEq

/-- Line 216: install the namespace-preserving comment
`[Comment("omero_annotation_namespace", namespace)]` into a produced values
entry. -/
def toEntry (cfg : NsConfig) (m : List (String × String)) : List (String × IVal) :=
  dictSet (m.map fun kv => (kv.1, IVal.s kv.2)) "comments" (.cmts [(anchorName, cfg.ns)])

/-- The per-namespace result `{"values": …, "ontology_values": …}`. -/
structure NsAttr where
  values : List (List (String × IVal))
  ontology_values : List OntAttr
deriving DecidableEq

/-- The defaults-only accumulator of lines 185-188 (`N = 0` path): every
non-`None` default value is set. -/
def defaultsOnly (defaults : List (String × Option String)) : List (String × String) :=
  defaults.foldl
    (fun m kd =>
      match kd.2 with
      | none => m
      | some v => dictSet m kd.1 v)
    []

/-- `_create_isa_attributes` for one annotation type (lines 151-217).
`.ok none` models the deletion of the namespace key when the produced
values list is empty (lines 205-206); `.error .assertionError` is the
internal-consistency assertion at line 208. -/
def createIsaAttributes (cfg : NsConfig) (annotation_data : List Annot) :
    Except PyErr (Option NsAttr) :=
  match extractAll cfg.ontology_annotations annotation_data with
  | .error e => .error e
  | .ok pr =>
    let ontVals := pr.1
    let ad := pr.2
    if annotation_data.length = 0 then
      -- set defaults if no annotations available (lines 183-191)
      let vts := defaultsOnly cfg.default_values
      if vts = [] then .ok none
      else
        let values := [vts]
        let ov := ontVals ++ [[]]
        if values.length = ov.length then
          .ok (some { values := values.map (toEntry cfg), ontology_values := ov })
        else .error .assertionError
    else
      let vs := buildValuesGo cfg.default_values [] [] ad
      if vs = [] then .ok none
      else if vs.length = ontVals.length then
        .ok (some { values := vs.map (toEntry cfg), ontology_values := ontVals })
      else .error .assertionError

/-! ## Mapper configurations from the source -/

/-- The `"assay"` entry of `OmeroDatasetMapper.isa_attribute_config`
(isa_mapping.py:305-313). -/
def assayConfig : NsConfig :=
  { ns := "ISA:ASSAY:ASSAY",
    default_values := [("filename", some "")],
    ontology_annotations := some ["measurement_type", "technology_type"] }

/-- The `"study"` entry of `OmeroProjectMapper.isa_attribute_config`
(isa_mapping.py:468-479), parameterized by the project's name and
description. -/
def studyConfig (projectName projectDescription : String) : NsConfig :=
  { ns := "ISA:STUDY:STUDY",
    default_values :=
      [("filename", some ""),
       ("identifier", some (deriveIdentifier projectName)),
       ("title", some projectName),
       ("description", some projectDescription),
       ("submission_date", none),
       ("public_release_date", none)],
    ontology_annotations := some ["design_descriptors"] }

/-- The `"study_publications"` entry of
`OmeroProjectMapper.isa_attribute_config` (isa_mapping.py:480-489): every
default value is `None`. -/
def studyPublicationsConfig : NsConfig :=
  { ns := "ISA:STUDY:STUDY PUBLICATIONS",
    default_values :=
      [("doi", none), ("pubmed_id", none), ("author_list", none), ("title", none)],
    ontology_annotations := some ["status"] }

/-- Every ontology field name appearing in the two mappers'
`isa_attribute_config` tables. -/
def sourceOntologyFields : List String :=
  ["measurement_type", "technology_type", "roles", "status", "design_descriptors"]

/-! ## Export / import round trip (isa_packer.py + importer)

The round trip compares four quantities: project title, project
description, study identifier, and assay (= dataset) count.  The export
side models `IsaPacker.pack` (isa_packer.py:171-208) in full control-flow
fidelity: `OmeroProjectMapper._create_investigation` first runs
`_create_isa_attributes` over ALL SIX configured namespaces in config
order (isa_mapping.py:425-490, 542) — so a grouping `TypeError` or a
line-208 assertion failure in ANY of them aborts the export — and then
builds the investigation, contacts, ontology-source reference,
publications and the study (lines 544-584).  The per-dataset assay
construction is `OmeroDatasetMapper._create_assay`
(isa_mapping.py:317-336, data-file copying omitted: the importer's dataset
count does not depend on it).  The import side is
`IsaInvestigationImporter.save` + `_add_datasets`
(isa_investigation_importer.py:171-191, 256-288). -/

/-- The project owner as `OmeroProjectMapper.__init__` reads it
(isa_mapping.py:423, 448-450): `getLastName`/`getFirstName`/`getEmail`,
each possibly `None`.  These become default values of the contacts
namespace. -/
structure ProjectOwner where
  lastName : Option String := none
  firstName : Option String := none
  email : Option String := none

/-- An OMERO dataset as the export mappers read it: display name and stored
map annotations, each a (namespace, key→value dict) pair. -/
structure OmeroDataset where
  name : String
  annotations : List (String × Annot) := []

/-- An OMERO project as the export mappers read it. -/
structure OmeroProject where
  name : String
  description : String
  owner : ProjectOwner := {}
  annotations : List (String × Annot) := []
  datasets : List OmeroDataset := []

/-- The `"investigation"` entry of `OmeroProjectMapper.isa_attribute_config`
(isa_mapping.py:426-436); no ontology fields. -/
def investigationConfig : NsConfig :=
  { ns := "ISA:INVESTIGATION:INVESTIGATION",
    default_values :=
      [("filename", some "i_investigation.txt"),
       ("identifier", some "default-investigation-id"),
       ("title", none),
       ("description", none),
       ("submission_date", none),
       ("public_release_date", none)],
    ontology_annotations := none }

/-- The `"investigation_ontology_source_reference"` entry
(isa_mapping.py:437-444); no ontology fields. -/
def ontologySourceRefConfig : NsConfig :=
  { ns := "ISA:INVESTIGATION:ONTOLOGY SOURCE REFERENCE",
    default_values := [("name", some ""), ("file", some ""), ("description", some "")],
    ontology_annotations := none }

/-- The `"investigation_contacts"` entry (isa_mapping.py:445-457): the
name/email defaults come from the project owner and may be `None`. -/
def investigationContactsConfig (owner : ProjectOwner) : NsConfig :=
  { ns := "ISA:INVESTIGATION:INVESTIGATION CONTACTS",
    default_values :=
      [("last_name", owner.lastName),
       ("first_name", owner.firstName),
       ("email", owner.email),
       ("phone", none), ("fax", none), ("address", none), ("affiliation", none)],
    ontology_annotations := some ["roles"] }

/-- The `"investigation_publications"` entry (isa_mapping.py:458-467):
every default value is `None`. -/
def investigationPublicationsConfig : NsConfig :=
  { ns := "ISA:INVESTIGATION:INVESTIGATION PUBLICATIONS",
    default_values :=
      [("doi", none), ("pubmed_id", none), ("author_list", none), ("title", none)],
    ontology_annotations := some ["status"] }

/-- The six namespaces of `OmeroProjectMapper.isa_attribute_config`, in
config order. -/
def projectMapperNamespaces : List String :=
  ["ISA:INVESTIGATION:INVESTIGATION",
   "ISA:INVESTIGATION:ONTOLOGY SOURCE REFERENCE",
   "ISA:INVESTIGATION:INVESTIGATION CONTACTS",
   "ISA:INVESTIGATION:INVESTIGATION PUBLICATIONS",
   "ISA:STUDY:STUDY",
   "ISA:STUDY:STUDY PUBLICATIONS"]

/-- `_annotation_data` (isa_mapping.py:228-242): the value dicts of the
stored annotations whose namespace matches. -/
def annotationsForNs (anns : List (String × Annot)) (ns : String) : List Annot :=
  (anns.filter fun a => a.1 == ns).map (·.2)

/-- Read a scalar value out of a produced parameter-set entry. -/
def asStr : Option IVal → Option String
  | some (.s v) => some v
  | _ => none

/-- Read the comment list out of a produced parameter-set entry. -/
def commentsOfEntry (e : List (String × IVal)) : Option (List (String × String)) :=
  match dictGet e "comments" with
  | some (.cmts l) => some l
  | _ => none

/-- The study fragment of the serialized `i_investigation.json` as the
importer consumes it.  `title`/`description`/`identifier` are the scalar
study parameters, `comments` the `(name, value)` comment pairs, `assays`
the serialized assay fragments. -/
structure StudyJson where
  title : Option String := none
  description : Option String := none
  identifier : Option String := none
  comments : List (String × String) := []
  assays : List AssayData := []
deriving DecidableEq

/-- Serialize one `Comment` into its JSON dict `{name: …, value: …}`. -/
def cmtToDict (nv : String × String) : Cmt :=
  [("name", nv.1), ("value", nv.2)]

/-- The per-namespace results of `_create_isa_attributes` over the project
mapper's whole config table (`none` in a field = that namespace key was
deleted at lines 205-206). -/
structure ProjectIsaAttrs where
  investigation : Option NsAttr
  ontologySourceRef : Option NsAttr
  contacts : Option NsAttr
  publications : Option NsAttr
  study : Option NsAttr
  studyPublications : Option NsAttr

/-- `_create_isa_attributes` on an `OmeroProjectMapper`
(isa_mapping.py:151-217 over the `for annotation_type in
self.isa_attribute_config` loop, invoked from `_create_investigation` at
line 542): every configured namespace is processed in config order, so a
grouping `TypeError` or line-208 `AssertionError` in an earlier namespace
aborts before the later ones run. -/
def projectCreateIsaAttributes (p : OmeroProject) : Except PyErr ProjectIsaAttrs :=
  match createIsaAttributes investigationConfig
      (annotationsForNs p.annotations investigationConfig.ns) with
  | .error e => .error e
  | .ok inv =>
    match createIsaAttributes ontologySourceRefConfig
        (annotationsForNs p.annotations ontologySourceRefConfig.ns) with
    | .error e => .error e
    | .ok osr =>
      match createIsaAttributes (investigationContactsConfig p.owner)
          (annotationsForNs p.annotations (investigationContactsConfig p.owner).ns) with
      | .error e => .error e
      | .ok cts =>
        match createIsaAttributes investigationPublicationsConfig
            (annotationsForNs p.annotations investigationPublicationsConfig.ns) with
        | .error e => .error e
        | .ok pubs =>
          match createIsaAttributes (studyConfig p.name p.description)
              (annotationsForNs p.annotations (studyConfig p.name p.description).ns) with
          | .error e => .error e
          | .ok study =>
            match createIsaAttributes studyPublicationsConfig
                (annotationsForNs p.annotations studyPublicationsConfig.ns) with
            | .error e => .error e
            | .ok spubs =>
              .ok { investigation := inv, ontologySourceRef := osr, contacts := cts,
                    publications := pubs, study := study, studyPublications := spubs }

/-- `_create_investigation` (isa_mapping.py:533-584): run
`_create_isa_attributes` over all six namespaces, then build the
investigation tree.  The construction phase can fail only at its direct
`values[0]` lookups — `isa_attributes["investigation"]` (line 544),
`…["investigation_ontology_source_reference"]` (line 559) and
`…["study"]` (line 578) raise `KeyError` when the namespace was deleted —
mirrored here in source order.  The contacts loop (547-555) and the
publications helper (563-576) use `.get(…, None)` and skip deleted
namespaces, and the `Person`/`Investigation`/`OntologySource`/
`Publication`/`Study` constructors receive only keys registered in the
default tables plus `comments` (plus the `roles`/`status`/
`design_descriptors` side channels), all of which are accepted keyword
parameters — no failure path there.  The result is the study fragment of
the serialized JSON, the only part the round-trip comparison consumes. -/
def exportStudy (p : OmeroProject) : Except PyErr StudyJson :=
  match projectCreateIsaAttributes p with
  | .error e => .error e
  | .ok attrs =>
    match attrs.investigation with
    | none => .error .keyError
    | some invAttr =>
      match invAttr.values with
      | [] => .error .keyError
      | _ :: _ =>
        match attrs.ontologySourceRef with
        | none => .error .keyError
        | some osrAttr =>
          match osrAttr.values with
          | [] => .error .keyError
          | _ :: _ =>
            match attrs.study with
            | none => .error .keyError
            | some stAttr =>
              match stAttr.values with
              | [] => .error .keyError
              | params :: _ =>
                .ok { title := asStr (dictGet params "title"),
                      description := asStr (dictGet params "description"),
                      identifier := asStr (dictGet params "identifier"),
                      comments := (commentsOfEntry params).getD [] }

/-- Assay construction for one dataset (`_create_assay`,
isa_mapping.py:326-330): assay parameters are
`isa_attributes["assay"]["values"][0]`, and
`assay_params["comments"].append(Comment("identifier", assay_identifier))`
appends the derived identifier comment.  Only the serialized comment list
matters to the importer's dataset pass. -/
def assayOfDataset (d : OmeroDataset) : Except PyErr AssayData :=
  match createIsaAttributes assayConfig
      (annotationsForNs d.annotations "ISA:ASSAY:ASSAY") with
  | .error e => .error e
  | .ok none => .error .keyError
  | .ok (some attr) =>
    match attr.values with
    | [] => .error .keyError
    | params :: _ =>
      match commentsOfEntry params with
      | none => .error .keyError
      | some cs =>
        .ok { comments := some ((cs ++ [("identifier", deriveIdentifier d.name)]).map cmtToDict) }

/-- Sequential effectful map (each Python loop iteration can raise). -/
def mapEx {α β : Type} (f : α → Except PyErr β) : List α → Except PyErr (List β)
  | [] => .ok []
  | x :: xs =>
    match f x with
    | .error e => .error e
    | .ok y =>
      match mapEx f xs with
      | .error e => .error e
      | .ok ys => .ok (y :: ys)

/-- The serialized investigation document (the `studies` array; the
importer reads nothing else for the compared quantities). -/
structure InvJson where
  studies : List StudyJson
deriving DecidableEq

/-- `IsaPacker.pack` (isa_packer.py:171-208): build the single study, then
append one assay per dataset of the project. -/
def packProject (p : OmeroProject) : Except PyErr InvJson :=
  match exportStudy p with
  | .error e => .error e
  | .ok st =>
    match mapEx assayOfDataset p.datasets with
    | .error e => .error e
    | .ok assays => .ok { studies := [{ st with assays := assays }] }

/-- The project the importer persists: resolved display name, description,
and one dataset record per imported assay. -/
structure ImportedProject where
  name : String
  description : String
  datasets : List DatasetRec
deriving DecidableEq

/-- `IsaInvestigationImporter.__init__` + `save` + `_add_datasets`
(isa_investigation_importer.py:147-191, 256-288): require exactly one
study; resolve the project name (explicit argument, else
`study_data.get("title", "no_study_title")`) and description
(`study_data.get("description", "")`); create one dataset per assay via
`DatasetFactory.save`.  (The mapped-annotation pass between the project
persist and the dataset pass swallows `AssertionError`s and does not
touch the compared quantities.) -/
def importerSave (data : InvJson) (projectName : Option String) :
    Except PyErr ImportedProject :=
  match data.studies with
  | [st] =>
    let name :=
      match projectName with
      | some n => n
      | none => st.title.getD "no_study_title"
    let desc := st.description.getD ""
    match mapEx datasetFactorySave st.assays with
    | .error e => .error e
    | .ok ds => .ok { name := name, description := desc, datasets := ds }
  | _ => .error .assertionError

/-- Export a project with `IsaPacker.pack`, then re-import the produced
JSON with `IsaInvestigationImporter` (no explicit project-name override). -/
def roundTrip (p : OmeroProject) : Except PyErr ImportedProject :=
  match packProject p with
  | .error e => .error e
  | .ok inv => importerSave inv none

/-! ## Concrete instances used by the claim theorems -/

/-- DataFile data whose comments carry a `roidata_filename` entry. -/
def dfRoi : ImgData :=
  { comments := [("name", "My Image"), ("roidata_filename", "img_roidata.json")],
    name := some "assays/a/dataset/img.tif" }

/-- A two-entry parsed ROI list. -/
def rdA : RoiData :=
  { roi_id := 1,
    shapes := [{ shapeType := "RectangleI", z := some 0, t := some 1, c := none,
                 x := 1, y := 2, width := 3, height := 4 }] }

/-- Second entry of the two-entry parsed ROI list. -/
def rdB : RoiData :=
  { roi_id := 2,
    shapes := [{ shapeType := "PointI", x := 9, y := 9 }] }

/-- A shape dict with all three plane coordinates null. -/
def siPoint : ShapeInfo := { shapeType := "PointI", x := 5, y := 6 }

/-- A dict-shaped fragment whose first comment entry is a bare string. -/
def fragStrComment : Frag := [("comments", FVal.list [FVal.str "x"])]

/-- A dict-shaped fragment with no comments key at all. -/
def fragNoComments : Frag := [("title", FVal.str "t")]

/-- The encode result for the assay namespace on one annotation
`{"foo": "bar"}`: the unregistered key is dropped, only the `filename`
default and the synthetic namespace comment appear. -/
def attrFooDropped : NsAttr :=
  { values := [[("filename", IVal.s ""),
                ("comments", IVal.cmts [(anchorName, "ISA:ASSAY:ASSAY")])]],
    ontology_values := [[("measurement_type", []), ("technology_type", [])]] }

/-- A project carrying a stored study-namespace annotation whose `title`
differs from the project's own display name. -/
def pOverride : OmeroProject :=
  { name := "P", description := "D",
    annotations := [("ISA:STUDY:STUDY", [("title", "Other Title")])] }

/-- An annotation-free project with one annotation-free dataset. -/
def pPlain : OmeroProject :=
  { name := "My Project", description := "Desc",
    datasets := [{ name := "My Data" }] }

/-- An assay fragment whose comments carry an identifier entry. -/
def assayWithId : AssayData :=
  { comments := some [[("name", "identifier"), ("value", "my-assay-id")]] }

/-! ## Supporting lemmas -/

theorem dictSet_ne_nil {α : Type} (m : List (String × α)) (k : String) (v : α) :
    dictSet m k v ≠ [] := by
  cases m with
  | nil => simp [dictSet]
  | cons p rest =>
    obtain ⟨k', v'⟩ := p
    simp only [dictSet]
    split <;> simp

theorem dictGet_dictSet_self {α : Type} (m : List (String × α)) (k : String) (v : α) :
    dictGet (dictSet m k v) k = some v := by
  induction m with
  | nil => simp [dictSet, dictGet]
  | cons p rest ih =>
    obtain ⟨k', v'⟩ := p
    simp only [dictSet]
    split
    · simp [dictGet]
    · next h =>
      simp only [dictGet, if_neg h]
      exact ih

theorem dictGet_dictSet_ne {α : Type} (m : List (String × α)) (k k' : String) (v : α)
    (h : k ≠ k') : dictGet (dictSet m k v) k' = dictGet m k' := by
  induction m with
  | nil => simp [dictSet, dictGet, h]
  | cons p rest ih =>
    obtain ⟨k₀, v₀⟩ := p
    simp only [dictSet]
    split
    · next h₀ =>
      subst h₀
      simp [dictGet, h]
    · next h₀ =>
      simp only [dictGet]
      split
      · rfl
      · exact ih

theorem toNat_ofNat_valid (n : Nat) (h : n < 0xd800) : (Char.ofNat n).toNat = n := by
  simp [Char.ofNat, Char.ofNatAux, Nat.isValidChar, h, Char.toNat, UInt32.toNat,
    BitVec.toNat_ofNatLt]

theorem pyLowerChar_idem (c : Char) : pyLowerChar (pyLowerChar c) = pyLowerChar c := by
  unfold pyLowerChar
  by_cases h : 65 ≤ c.toNat ∧ c.toNat ≤ 90
  · rw [if_pos h]
    have hv : (Char.ofNat (c.toNat + 32)).toNat = c.toNat + 32 :=
      toNat_ofNat_valid _ (by omega)
    rw [if_neg]
    rw [hv]; omega
  · rw [if_neg h, if_neg h]

theorem pyLowerChar_toNat_not_upper (c : Char) :
    ¬ (65 ≤ (pyLowerChar c).toNat ∧ (pyLowerChar c).toNat ≤ 90) := by
  unfold pyLowerChar
  by_cases h : 65 ≤ c.toNat ∧ c.toNat ≤ 90
  · rw [if_pos h]
    have hv : (Char.ofNat (c.toNat + 32)).toNat = c.toNat + 32 :=
      toNat_ofNat_valid _ (by omega)
    rw [hv]; omega
  · rw [if_neg h]; exact h

/-- Replacing a single-character pattern by a single character is a `map`. -/

theorem replFuel_single (a b : Char) :
    ∀ (fuel : Nat) (l : List Char), l.length ≤ fuel →
      replFuel [a] [b] fuel l = l.map (fun c => if c = a then b else c) := by
  intro fuel
  induction fuel with
  | zero =>
    intro l hl
    cases l with
    | nil => rfl
    | cons c cs => simp at hl
  | succ n ih =>
    intro l hl
    cases l with
    | nil => rfl
    | cons c cs =>
      have hpre : ([a].isPrefixOf (c :: cs)) = (a == c) := by
        simp [List.isPrefixOf]
      simp only [replFuel, hpre, List.map_cons, List.length_cons] at *
      by_cases h : a = c
      · subst h
        rw [if_pos (by simp)]
        simp [ih cs (by omega)]
      · rw [if_neg (by simp [h])]
        rw [ih cs (by omega)]
        rw [if_neg (fun hc => h hc.symm)]

theorem replaceAll_single (a b : Char) (l : List Char) :
    replaceAll l [a] [b] = l.map (fun c => if c = a then b else c) := by
  unfold replaceAll
  rw [if_neg (by simp [List.isEmpty])]
  exact replFuel_single a b l.length l le_rfl

theorem deriveIdentifier_eq_map (s : String) :
    deriveIdentifier s = ⟨s.data.map lowerDashChar⟩ := by
  unfold deriveIdentifier strReplace pyLower
  rw [show (" " : String).data = [' '] from rfl, show ("-" : String).data = ['-'] from rfl]
  show String.mk (replaceAll (s.data.map pyLowerChar) [' '] ['-']) = _
  rw [replaceAll_single, List.map_map]
  rfl

theorem lowerDashChar_idem (c : Char) : lowerDashChar (lowerDashChar c) = lowerDashChar c := by
  unfold lowerDashChar
  by_cases h : pyLowerChar c = ' '
  · rw [if_pos h]
    have h1 : pyLowerChar '-' = '-' := by decide
    rw [h1]
    rw [if_neg (by decide)]
  · rw [if_neg h, pyLowerChar_idem, if_neg h]

theorem foldl_preserve {α β : Type} (f : α → β → α) (P : α → Prop)
    (hstep : ∀ a b, P a → P (f a b)) :
    ∀ (l : List β) (m : α), P m → P (l.foldl f m) := by
  intro l
  induction l with
  | nil => intro m hm; exact hm
  | cons b rest ih => intro m hm; exact ih (f m b) (hstep m b hm)

theorem foldl_establish {α β : Type} (f : α → β → α) (P : α → Prop)
    (hstep : ∀ a b, P a → P (f a b)) :
    ∀ (l : List β) (b₀ : β), b₀ ∈ l → (∀ a, P (f a b₀)) →
      ∀ m, P (l.foldl f m) := by
  intro l
  induction l with
  | nil => intro b₀ hb; exact absurd hb (List.not_mem_nil b₀)
  | cons b rest ih =>
    intro b₀ hb hP m
    rcases List.mem_cons.mp hb with hb | hb
    · subst hb
      exact foldl_preserve f P hstep rest (f m b₀) (hP m)
    · exact ih b₀ hb hP (f m b)

theorem pyGetOr_some_default (a : Annot) (k : String) (w : String) :
    ∃ u, pyGetOr a k (some w) = some u := by
  unfold pyGetOr
  cases dictGet a k <;> exact ⟨_, rfl⟩

theorem scalarStep_ne_nil (defaults : List (String × Option String)) (a : Annot)
    (vts : List (String × String)) (h : ∃ kd ∈ defaults, kd.2 ≠ none) :
    scalarStep defaults a vts ≠ [] := by
  obtain ⟨kd, hkd, hv⟩ := h
  obtain ⟨k, dv⟩ := kd
  obtain ⟨w, hw⟩ := Option.ne_none_iff_exists'.mp hv
  subst hw
  unfold scalarStep
  refine foldl_establish _ (fun m => m ≠ []) ?_ defaults (k, some w) hkd ?_ vts
  · intro m b hm
    cases pyGetOr a b.1 b.2 with
    | none => exact hm
    | some v => exact dictSet_ne_nil m b.1 v
  · intro m
    obtain ⟨u, hu⟩ := pyGetOr_some_default a k w
    simp only [hu]
    exact dictSet_ne_nil m k u

theorem defaultsOnly_ne_nil (defaults : List (String × Option String))
    (h : ∃ kd ∈ defaults, kd.2 ≠ none) : defaultsOnly defaults ≠ [] := by
  obtain ⟨kd, hkd, hv⟩ := h
  obtain ⟨k, dv⟩ := kd
  obtain ⟨w, hw⟩ := Option.ne_none_iff_exists'.mp hv
  subst hw
  unfold defaultsOnly
  refine foldl_establish _ (fun m => m ≠ []) ?_ defaults (k, some w) hkd ?_ []
  · intro m b hm
    cases b.2 with
    | none => exact hm
    | some v => exact dictSet_ne_nil m b.1 v
  · intro m
    exact dictSet_ne_nil m k w

theorem buildValuesGo_length (defaults : List (String × Option String))
    (h : ∃ kd ∈ defaults, kd.2 ≠ none) :
    ∀ (ad : List Annot) (vts : List (String × String))
      (vs : List (List (String × String))),
      (buildValuesGo defaults vts vs ad).length = vs.length + ad.length := by
  intro ad
  induction ad with
  | nil => intro vts vs; simp [buildValuesGo]
  | cons a rest ih =>
    intro vts vs
    simp only [buildValuesGo]
    rw [if_neg (scalarStep_ne_nil defaults a vts h), ih]
    simp only [List.length_append, List.length_cons, List.length_nil]
    omega

theorem extractOntAll_lengths (onts : List String) :
    ∀ (ad : List Annot) (pr : List OntAttr × List Annot),
      extractOntAll onts ad = .ok pr →
      pr.1.length = ad.length ∧ pr.2.length = ad.length := by
  intro ad
  induction ad with
  | nil =>
    intro pr h
    unfold extractOntAll at h
    cases h
    simp
  | cons d rest ih =>
    intro pr h
    unfold extractOntAll at h
    cases h1 : extractOntForAnnot onts d with
    | error e => rw [h1] at h; cases h
    | ok p1 =>
      rw [h1] at h
      cases h2 : extractOntAll onts rest with
      | error e => rw [h2] at h; cases h
      | ok res =>
        rw [h2] at h
        cases h
        obtain ⟨l1, l2⟩ := ih res h2
        constructor <;> simp [l1, l2]

theorem extractAll_lengths (ontCfg : Option (List String)) (ad : List Annot)
    (pr : List OntAttr × List Annot) (h : extractAll ontCfg ad = .ok pr) :
    pr.1.length = ad.length ∧ pr.2.length = ad.length := by
  cases ontCfg with
  | none =>
    unfold extractAll at h
    cases h
    simp
  | some onts => exact extractOntAll_lengths onts ad pr h

theorem mapEx_ok_of_forall {α β : Type} (f : α → Except PyErr β) :
    ∀ l : List α, (∀ x ∈ l, ∃ y, f x = .ok y) →
      ∃ ys, mapEx f l = .ok ys ∧ ys.length = l.length ∧
        ∀ y ∈ ys, ∃ x ∈ l, f x = .ok y := by
  intro l
  induction l with
  | nil => intro _; exact ⟨[], rfl, rfl, by simp⟩
  | cons x xs ih =>
    intro h
    obtain ⟨y, hy⟩ := h x (List.mem_cons_self x xs)
    obtain ⟨ys, hys, hlen, hmem⟩ := ih (fun a ha => h a (List.mem_cons_of_mem x ha))
    refine ⟨y :: ys, ?_, by simp [hlen], ?_⟩
    · unfold mapEx
      rw [hy, hys]
    · intro z hz
      rcases List.mem_cons.mp hz with hz | hz
      · exact ⟨x, List.mem_cons_self x xs, hz ▸ hy⟩
      · obtain ⟨w, hw, hfw⟩ := hmem z hz
        exact ⟨w, List.mem_cons_of_mem x hw, hfw⟩

theorem findIdentifierValue_eq_find (cs : List Cmt) :
    findIdentifierValue cs =
      (cs.find? fun c => dictGet c "name" == some "identifier").map
        (fun c => dictGet c "value") := by
  induction cs with
  | nil => rfl
  | cons c rest ih =>
    unfold findIdentifierValue
    by_cases h : dictGet c "name" = some "identifier"
    · simp [List.find?_cons, h]
    · simp [List.find?_cons, h, ih]

theorem commentsOfEntry_toEntry (cfg : NsConfig) (m : List (String × String)) :
    commentsOfEntry (toEntry cfg m) = some [(anchorName, cfg.ns)] := by
  unfold commentsOfEntry toEntry
  rw [dictGet_dictSet_self]

theorem createIsa_values_shape (cfg : NsConfig) (ad : List Annot) (attr : NsAttr)
    (h : createIsaAttributes cfg ad = .ok (some attr)) :
    ∃ ms : List (List (String × String)), attr.values = ms.map (toEntry cfg) := by
  unfold createIsaAttributes at h
  cases hx : extractAll cfg.ontology_annotations ad with
  | error e => rw [hx] at h; cases h
  | ok pr =>
    rw [hx] at h
    simp only [] at h
    split at h
    · split at h
      · cases h
      · split at h
        · cases h
          exact ⟨_, rfl⟩
        · cases h
    · split at h
      · cases h
      · split at h
        · cases h
          exact ⟨_, rfl⟩
        · cases h

theorem createIsa_ok_some_lengths (cfg : NsConfig) (ad : List Annot) (attr : NsAttr)
    (h1 : ad ≠ []) (h : createIsaAttributes cfg ad = .ok (some attr)) :
    attr.values.length = ad.length ∧ attr.ontology_values.length = ad.length := by
  unfold createIsaAttributes at h
  cases hx : extractAll cfg.ontology_annotations ad with
  | error e => rw [hx] at h; cases h
  | ok pr =>
    obtain ⟨hl1, hl2⟩ := extractAll_lengths cfg.ontology_annotations ad pr hx
    rw [hx] at h
    simp only [] at h
    rw [if_neg (fun hz => h1 (List.length_eq_zero.mp hz))] at h
    split at h
    · cases h
    · split at h
      · next heq =>
        cases h
        constructor
        · simpa [heq] using hl1
        · simpa using hl1
      · cases h

theorem createIsa_ne_ok_none (cfg : NsConfig) (ad : List Annot)
    (hdef : ∃ kd ∈ cfg.default_values, kd.2 ≠ none) :
    createIsaAttributes cfg ad ≠ .ok none := by
  unfold createIsaAttributes
  cases hx : extractAll cfg.ontology_annotations ad with
  | error e => simp
  | ok pr =>
    simp only []
    split
    · rw [if_neg (defaultsOnly_ne_nil cfg.default_values hdef)]
      split
      · simp
      · simp
    · next hlen =>
      rw [if_neg ?_]
      · split
        · simp
        · simp
      · intro hnil
        have := buildValuesGo_length cfg.default_values hdef pr.2 [] []
        rw [hnil] at this
        have hl2 := (extractAll_lengths cfg.ontology_annotations ad pr hx).2
        simp at this
        omega

/-! ## Supporting lemmas: round trip -/

theorem annotationsForNs_eq_nil (anns : List (String × Annot)) (ns : String)
    (h : ∀ a ∈ anns, a.1 ≠ ns) : annotationsForNs anns ns = [] := by
  unfold annotationsForNs
  rw [List.filter_eq_nil_iff.mpr ?_]
  · rfl
  · intro a ha
    simpa using h a ha

theorem createIsa_nil_ok (cfg : NsConfig) : ∃ r, createIsaAttributes cfg [] = .ok r := by
  unfold createIsaAttributes
  have hx : extractAll cfg.ontology_annotations [] = .ok ([], []) := by
    unfold extractAll
    cases cfg.ontology_annotations with
    | none => rfl
    | some onts => rfl
  rw [hx]
  dsimp only []
  by_cases hv : defaultsOnly cfg.default_values = []
  · rw [if_pos hv]
    exact ⟨none, rfl⟩
  · rw [if_neg hv]
    exact ⟨_, rfl⟩

theorem exportStudy_of_no_mapper_anns (p : OmeroProject)
    (hall : ∀ ns ∈ projectMapperNamespaces, annotationsForNs p.annotations ns = []) :
    exportStudy p =
      .ok { title := some p.name, description := some p.description,
            identifier := some (deriveIdentifier p.name),
            comments := [(anchorName, "ISA:STUDY:STUDY")], assays := [] } := by
  obtain ⟨rc, hrc⟩ := createIsa_nil_ok (investigationContactsConfig p.owner)
  have hm3 : (investigationContactsConfig p.owner).ns ∈ projectMapperNamespaces := by
    show "ISA:INVESTIGATION:INVESTIGATION CONTACTS" ∈ projectMapperNamespaces
    decide
  have hm5 : (studyConfig p.name p.description).ns ∈ projectMapperNamespaces := by
    show "ISA:STUDY:STUDY" ∈ projectMapperNamespaces
    decide
  unfold exportStudy projectCreateIsaAttributes
  rw [hall investigationConfig.ns (by decide),
    hall ontologySourceRefConfig.ns (by decide),
    hall (investigationContactsConfig p.owner).ns hm3,
    hall investigationPublicationsConfig.ns (by decide),
    hall (studyConfig p.name p.description).ns hm5,
    hall studyPublicationsConfig.ns (by decide),
    hrc]
  rfl

theorem assayOfDataset_comments (d : OmeroDataset) (a : AssayData)
    (h : assayOfDataset d = .ok a) :
    a.comments = some [[("name", anchorName), ("value", "ISA:ASSAY:ASSAY")],
                       [("name", "identifier"), ("value", deriveIdentifier d.name)]] := by
  unfold assayOfDataset at h
  cases hc : createIsaAttributes assayConfig
      (annotationsForNs d.annotations "ISA:ASSAY:ASSAY") with
  | error e => rw [hc] at h; simp at h
  | ok o =>
    rw [hc] at h
    cases o with
    | none => simp at h
    | some attr =>
      obtain ⟨ms, hms⟩ := createIsa_values_shape assayConfig _ attr hc
      dsimp only [] at h
      cases hv : attr.values with
      | nil => rw [hv] at h; simp at h
      | cons params tail =>
        rw [hv] at h
        have hparams : ∃ m, params = toEntry assayConfig m := by
          rw [hv] at hms
          cases ms with
          | nil => cases hms
          | cons m ms' =>
            simp only [List.map_cons, List.cons.injEq] at hms
            exact ⟨m, hms.1⟩
        obtain ⟨m, hm⟩ := hparams
        rw [hm] at h
        dsimp only [] at h
        rw [commentsOfEntry_toEntry] at h
        cases h
        rfl

theorem datasetSave_of_assayOk (d : OmeroDataset) (a : AssayData)
    (h : assayOfDataset d = .ok a) :
    datasetFactorySave a = .ok { name := some (deriveIdentifier d.name) } := by
  have hc := assayOfDataset_comments d a h
  unfold datasetFactorySave
  rw [hc]
  rfl

theorem importerSave_single (st : StudyJson) (ds : List DatasetRec)
    (h : mapEx datasetFactorySave st.assays = .ok ds) :
    importerSave { studies := [st] } none =
      .ok { name := st.title.getD "no_study_title",
            description := st.description.getD "", datasets := ds } := by
  unfold importerSave
  simp only [h]

/-- The export pipeline really exposes the non-study namespaces' error
paths: a stored study-publications annotation with the key `status_x` is
consumed by the `"status" in k` grouping, stripped to the invalid
`OntologyAnnotation` keyword `x`, and `pack` aborts with `TypeError`
(isa_mapping.py:173) before any JSON is produced. -/
theorem packProject_aborts_on_bad_publication_key :
    packProject
      { name := "P", description := "D",
        annotations := [("ISA:STUDY:STUDY PUBLICATIONS", [("status_x", "y")])] } =
      .error .typeError := rfl

theorem dictGet_scalarStep_of_not_mem (a : Annot) (k : String) :
    ∀ defaults : List (String × Option String), k ∉ defaults.map Prod.fst →
      ∀ vts, dictGet (scalarStep defaults a vts) k = dictGet vts k := by
  intro defaults
  induction defaults with
  | nil => intro _ vts; rfl
  | cons kd rest ih =>
    intro hk vts
    have hk1 : kd.1 ≠ k := by
      intro he
      exact hk (by simp [he])
    have hrest : k ∉ rest.map Prod.fst := fun hm => hk (by simp [hm])
    unfold scalarStep
    rw [List.foldl_cons]
    have step := ih hrest
    unfold scalarStep at step
    rw [step]
    cases pyGetOr a kd.1 kd.2 with
    | none => rfl
    | some v => exact dictGet_dictSet_ne vts kd.1 k v hk1

theorem dictGet_scalarStep_mem (a : Annot) :
    ∀ (defaults : List (String × Option String)) (vts : List (String × String))
      (k v : String) (dv : Option String),
      (defaults.map Prod.fst).Nodup → (k, dv) ∈ defaults → dictGet a k = some v →
      dictGet (scalarStep defaults a vts) k = some v := by
  intro defaults
  induction defaults with
  | nil => intro vts k v dv _ hm; exact absurd hm (List.not_mem_nil _)
  | cons kd rest ih =>
    intro vts k v dv hnd hm hget
    unfold scalarStep
    rw [List.foldl_cons]
    rcases List.mem_cons.mp hm with he | hm'
    · have hknotin : k ∉ rest.map Prod.fst := by
        rw [← he] at hnd
        simp only [List.map_cons, List.nodup_cons] at hnd
        exact hnd.1
      have hrest := dictGet_scalarStep_of_not_mem a k rest hknotin
      unfold scalarStep at hrest
      rw [hrest]
      rw [← he]
      have hor : pyGetOr a k dv = some v := by
        unfold pyGetOr
        rw [hget]
      simp only [hor]
      exact dictGet_dictSet_self vts k v
    · have hnd' : (rest.map Prod.fst).Nodup := by
        simp only [List.map_cons, List.nodup_cons] at hnd
        exact hnd.2
      have step := ih
        (match pyGetOr a kd.1 kd.2 with
         | none => vts
         | some w => dictSet vts kd.1 w) k v dv hnd' hm' hget
      unfold scalarStep at step
      exact step

/-! ## Claim theorems -/

/-- C1: evaluation of the ROI decode operation at the failing input — a
parsed ROI list with two entries.  Because `return roi` (roi.py:254) sits
inside the `for roi_data in roi_data_list` loop, only the FIRST entry is
built and persisted: the persisted-record list has length 1, not 2,
contradicting the claim (and the function's own docstring, which says each
ROI is saved separately and the first is merely the return value). -/
theorem roi_decode_persists_only_first :
    import_rois_from_json [rdA, rdB] 7 = ([mkRoi 7 rdA], some (mkRoi 7 rdA)) ∧
    (import_rois_from_json [rdA, rdB] 7).1.length = 1 :=
  ⟨rfl, rfl⟩

/-- C2: evaluation of `ImageFactory.save` at the failing input — a DataFile
carrying a `roidata_filename` comment whose external upload returns a null
result.  The save succeeds and invokes the ROI import step with the null
image handle (`roiImportImage = some none`), instead of skipping it
(`roiImportImage = none`) as the claim requires: the guard at
isa_investigation_importer.py:385 checks only `roidata_filename`, never the
upload result. -/
theorem image_builder_roi_import_on_null_upload :
    imageFactorySave dfRoi (fun _ => true) none =
      .ok { image := none, roiImportImage := some none } :=
  rfl

/-- C3 (counterexample): one stored annotation (`N = 1`) under the
study-publications namespace, whose configuration has only `None` defaults,
and which carries no registered key.  Encode produces ZERO parameter-set
entries and silently drops the namespace (`.ok none`, the `del` at
isa_mapping.py:205-206) — neither `N = 1` entries nor an assertion
failure, so the claim as stated is false. -/
theorem annotation_encode_count_counterexample :
    createIsaAttributes studyPublicationsConfig [[("foo", "bar")]] = .ok none ∧
    ¬ (createIsaAttributes studyPublicationsConfig [[("foo", "bar")]] =
          .error .assertionError ∨
       ∃ attr : NsAttr,
         createIsaAttributes studyPublicationsConfig [[("foo", "bar")]] =
             .ok (some attr) ∧
           attr.values.length = 1 ∧ attr.ontology_values.length = 1) := by
  have hv : createIsaAttributes studyPublicationsConfig [[("foo", "bar")]] = .ok none := rfl
  refine ⟨hv, ?_⟩
  rintro (hc | ⟨attr, hattr, _⟩)
  · rw [hv] at hc; cases hc
  · rw [hv] at hattr; cases hattr

/-- C3 (amended): whenever encode completes successfully for a namespace
with `N ≥ 1` stored annotation objects, it produces exactly `N`
parameter-set value entries and the ontology-value list has the same length
(the line-208 assertion enforces the correspondence on every successful
run); and when the namespace's default table contains at least one
non-`None` default, the silent-drop outcome (`.ok none`) is impossible.
What the counterexample forces out of the original claim is the all-`None`-
defaults, no-contributing-annotation case, where the namespace is dropped
without `N` entries and without an assertion failure. -/
theorem annotation_encode_count_amended (cfg : NsConfig) (ad : List Annot) :
    (∀ attr : NsAttr, ad ≠ [] → createIsaAttributes cfg ad = .ok (some attr) →
       attr.values.length = ad.length ∧ attr.ontology_values.length = ad.length) ∧
    ((∃ kd ∈ cfg.default_values, kd.2 ≠ none) → createIsaAttributes cfg ad ≠ .ok none) :=
  ⟨fun attr h1 h => createIsa_ok_some_lengths cfg ad attr h1 h,
   fun hdef => createIsa_ne_ok_none cfg ad hdef⟩

/-- C3 (witness): the amended theorem applied to the assay namespace with
one stored annotation `{"x": "y"}`. -/
theorem annotation_encode_count_witness :
    attrFooDropped.values.length = 1 ∧ attrFooDropped.ontology_values.length = 1 ∧
    createIsaAttributes assayConfig [[("x", "y")]] ≠ .ok none := by
  have h := annotation_encode_count_amended assayConfig [[("x", "y")]]
  have h1 := h.1 attrFooDropped (by simp) rfl
  exact ⟨h1.1, h1.2, h.2 ⟨("filename", some ""), by simp [assayConfig], by simp⟩⟩

/-- C4 (counterexample): a dict-shaped fragment whose `comments` list is
non-empty but whose first entry is a bare string, not a mapping.  The first
entry is "not the omero_annotation_namespace anchor", yet decode raises
`AttributeError` (from `.get` on a `str`,
isa_investigation_importer.py:578), NOT the recoverable `AssertionError`;
the `except AssertionError` caller does not skip it but propagates the
error.  So the claim as stated is false for non-mapping first entries. -/
theorem annotation_decode_anchor_counterexample :
    mkMappedAnnFactory fragStrComment = .error .attributeError ∧
    mkMappedAnnFactory fragStrComment ≠ .error .assertionError ∧
    addMappedAnnStep fragStrComment ≠ .ok [] := by
  have h1 : mkMappedAnnFactory fragStrComment = .error .attributeError := rfl
  have h2 : addMappedAnnStep fragStrComment = .error .attributeError := rfl
  refine ⟨h1, ?_, ?_⟩
  · rw [h1]
    intro hc
    cases hc
  · rw [h2]
    intro hc
    cases hc

/-- C4 (amended): for every dict-shaped fragment whose `comments` entry is
absent or empty, or whose first comment entry is a MAPPING that lacks a
`name` or `value` field or whose `name` is not the
`omero_annotation_namespace` anchor, annotation decode raises the
recoverable `AssertionError` before any mapping is built, and the caller's
`except AssertionError` handler skips the fragment with no annotation
object produced or persisted.  (The counterexample forces the restriction
of the first-entry case to mapping-shaped entries: a non-mapping first
entry raises an uncaught `AttributeError` instead.) -/
theorem annotation_decode_anchor_amended (frag : Frag)
    (h : dictGet frag "comments" = none ∨
         (∃ cv, dictGet frag "comments" = some cv ∧ pyLen cv = 0) ∨
         (∃ d0 rest, dictGet frag "comments" = some (.list (.dict d0 :: rest)) ∧
            (dictGet d0 "name" = none ∨ dictGet d0 "value" = none ∨
             ∀ s, dictGet d0 "name" = some (.str s) → s ≠ anchorName))) :
    mkMappedAnnFactory frag = .error .assertionError ∧
    addMappedAnnStep frag = .ok [] := by
  have hmain : mkMappedAnnFactory frag = .error .assertionError := by
    unfold mkMappedAnnFactory
    rcases h with h | ⟨cv, hcv, hlen⟩ | ⟨d0, rest, hcv, hcase⟩
    · rw [h]
    · rw [hcv]
      dsimp only []
      rw [if_pos hlen]
    · rw [hcv]
      dsimp only []
      rw [if_neg (by simp [pyLen])]
      dsimp only [pyIndex0, pyGetMethod]
      rcases hcase with hn | hv | hns
      · simp only [hn]
      · cases hname : dictGet d0 "name" with
        | none => rfl
        | some nv =>
          dsimp only []
          rw [hv]
      · cases hname : dictGet d0 "name" with
        | none => rfl
        | some nv =>
          dsimp only []
          cases hval : dictGet d0 "value" with
          | none => rfl
          | some vv =>
            dsimp only []
            cases nv with
            | str n =>
              dsimp only []
              rw [if_neg (hns n hname)]
            | list l => rfl
            | dict dd => rfl
  exact ⟨hmain, by unfold addMappedAnnStep; rw [hmain]⟩

/-- C4 (witness): the amended theorem applied to a fragment with no
`comments` key at all. -/
theorem annotation_decode_anchor_witness :
    mkMappedAnnFactory fragNoComments = .error .assertionError ∧
    addMappedAnnStep fragNoComments = .ok [] :=
  annotation_decode_anchor_amended fragNoComments (Or.inl rfl)

/-- C5 (counterexample): under the assay configuration (ontology field
`measurement_type`), the annotation key `measurement_type_extra` does NOT
match the ontology suffix pattern, yet it is consumed by the
substring-containment grouping (`ont in k`, isa_mapping.py:167): it is
removed from the scalar dict, stripped to `extra`, and passed as an
unexpected `OntologyAnnotation` keyword — the whole encode raises
`TypeError` instead of passing the key through as a scalar.  And the plain
non-matching key `foo` is not passed through either: only keys registered
in the default-value table reach the parameter-set entry. -/
theorem ontology_grouping_counterexample :
    createIsaAttributes assayConfig [[("foo", "bar"), ("measurement_type_extra", "x")]] =
      .error .typeError ∧
    (stripOnt "measurement_type" [("foo", "bar"), ("measurement_type_extra", "x")]).2 =
      [("foo", "bar")] ∧
    (stripOnt "measurement_type" [("foo", "bar"), ("measurement_type_extra", "x")]).1 =
      [("extra", "x")] ∧
    ¬ ∃ (attr : NsAttr) (entry : List (String × IVal)),
        createIsaAttributes assayConfig [[("foo", "bar")]] = .ok (some attr) ∧
        attr.values = [entry] ∧ dictGet entry "foo" = some (IVal.s "bar") := by
  refine ⟨rfl, rfl, rfl, ?_⟩
  rintro ⟨attr, entry, h1, h2, h3⟩
  have hv : createIsaAttributes assayConfig [[("foo", "bar")]] =
      .ok (some attrFooDropped) := rfl
  rw [hv] at h1
  cases h1
  simp only [attrFooDropped, List.cons.injEq, and_true] at h2
  rw [← h2] at h3
  cases h3

/-- C5 (amended): in the grouping step of encode, (a) every key NOT
containing the configured ontology field name as a substring stays in the
scalar (residual) dict; (b) for each ontology field configured in the
source, a full pattern triple `<f>_term` / `<f>_term_accession` /
`<f>_term_source` is grouped into the ontology structure under the keys
`term` / `term_accession` / `term_source` — the `<f>_` prefix stripped —
with `term_source` wrapped into an ontology-source reference, and the
constructor call succeeds; (c) a key registered in the default-value table
passes its annotation value into the parameter-set accumulator.  (The
counterexample forces the two changes from the original claim: membership
is substring containment rather than the exact suffix pattern, and only
registered keys reach the entry.) -/
theorem ontology_grouping_amended :
    (∀ (ont k v : String) (d : Annot), (k, v) ∈ d → strContains k ont = false →
       (k, v) ∈ (stripOnt ont d).2) ∧
    (∀ ont, ont ∈ sourceOntologyFields → ∀ a b c : String,
       stripOnt ont [(ont ++ "_term", a), (ont ++ "_term_accession", b),
                     (ont ++ "_term_source", c)] =
         ([("term", a), ("term_accession", b), ("term_source", c)], []) ∧
       mkOntologyAnnot [("term", a), ("term_accession", b), ("term_source", c)] =
         .ok [("term", OntVal.str a), ("term_accession", OntVal.str b),
              ("term_source", OntVal.source c)]) ∧
    (∀ (defaults : List (String × Option String)) (a : Annot) (k v : String)
       (dv : Option String),
       (defaults.map Prod.fst).Nodup → (k, dv) ∈ defaults → dictGet a k = some v →
       dictGet (scalarStep defaults a []) k = some v) := by
  refine ⟨?_, ?_, ?_⟩
  · intro ont k v d hmem hnc
    unfold stripOnt
    simp only [List.mem_filter]
    exact ⟨hmem, by simp [hnc]⟩
  · intro ont hont
    fin_cases hont <;> exact fun a b c => ⟨rfl, rfl⟩
  · intro defaults a k v dv hnd hmem hget
    exact dictGet_scalarStep_mem a defaults [] k v dv hnd hmem hget

/-- C5 (witness): the amended theorem applied at concrete inputs: a free
key survives grouping, the `measurement_type` pattern triple groups and
strips, and a registered `filename` key reaches the accumulator. -/
theorem ontology_grouping_witness :
    ("free", "1") ∈ (stripOnt "measurement_type" [("free", "1")]).2 ∧
    stripOnt "measurement_type"
        [("measurement_type_term", "imaging"), ("measurement_type_term_accession", "A1"),
         ("measurement_type_term_source", "EFO")] =
      ([("term", "imaging"), ("term_accession", "A1"), ("term_source", "EFO")], []) ∧
    dictGet (scalarStep [("filename", some "")] [("filename", "f.txt")] []) "filename" =
      some "f.txt" := by
  obtain ⟨p1, p2, p3⟩ := ontology_grouping_amended
  exact ⟨p1 "measurement_type" "free" "1" [("free", "1")] (by simp) (by decide),
         (p2 "measurement_type" (by decide) "imaging" "A1" "EFO").1,
         p3 [("filename", some "")] [("filename", "f.txt")] "filename" "f.txt" (some "")
           (by simp) (by simp) (by decide)⟩

/-- C6: for every shape of a decoded ROI list whose construction succeeds
(recognized type tag), a null `z`/`t`/`c` plane coordinate defaults to `0`
in the constructed geometry record (`rint(shape_info["z"] or 0)`,
roi.py:210-212).  "Missing" is modelled as a JSON null: the export side
always writes the three keys (null when unset), and the import code reads
them unconditionally. -/
theorem roi_decode_plane_defaults (si : ShapeInfo) (sh : OmeShape)
    (h : buildShape si = some sh) :
    (si.z = none → sh.theZ = 0) ∧ (si.t = none → sh.theT = 0) ∧
    (si.c = none → sh.theC = 0) := by
  unfold buildShape at h
  cases hg : shapeGeom si with
  | none => rw [hg] at h; cases h
  | some g =>
    rw [hg] at h
    simp only [Option.map_some'] at h
    cases h
    refine ⟨?_, ?_, ?_⟩ <;> intro hz <;> simp [pyOrZero, hz]

/-- C6 (witness): a `PointI` shape with all three plane coordinates null
decodes with `theZ = theT = theC = 0`. -/
theorem roi_decode_plane_defaults_witness :
    ({ geom := Geom.point 5 6, theZ := 0, theT := 0, theC := 0 } : OmeShape).theZ = 0 ∧
    ({ geom := Geom.point 5 6, theZ := 0, theT := 0, theC := 0 } : OmeShape).theT = 0 ∧
    ({ geom := Geom.point 5 6, theZ := 0, theT := 0, theC := 0 } : OmeShape).theC = 0 := by
  have h := roi_decode_plane_defaults siPoint
    { geom := Geom.point 5 6, theZ := 0, theT := 0, theC := 0 } rfl
  exact ⟨h.1 rfl, h.2.1 rfl, h.2.2 rfl⟩

/-- C7 (counterexample): a project named `P` carrying a stored
`ISA:STUDY:STUDY` annotation with `title = "Other Title"`.  Export takes
the study title from the annotation, and re-import names the project after
the study title: the round trip yields `Other Title`, not `P`. -/
theorem roundtrip_counterexample :
    ¬ ∃ q : ImportedProject, roundTrip pOverride = .ok q ∧ q.name = pOverride.name := by
  rintro ⟨q, hq, hn⟩
  have hv : roundTrip pOverride =
      .ok { name := "Other Title", description := "D", datasets := [] } := rfl
  rw [hv] at hq
  cases hq
  exact absurd hn (by decide)

/-- C7 (amended): for a project carrying no stored annotations in any of
the project mapper's six configured namespaces (so every investigation- and
study-level parameter set comes from the mapper's defaults — in particular
no namespace can abort the export through the ontology-grouping `TypeError`
or the line-208 assertion, and the study title/description/identifier are
the project-derived defaults) and whose datasets all export successfully,
exporting and re-importing reproduces the project title, the project
description, and the dataset count, and the packed study's identifier is
the one derived from the project name.  (The counterexample forces the
study-namespace exclusion — a stored study annotation overrides the
exported title — and the export pipeline's other namespaces need their own
exclusion because their stored annotations can abort `pack` before any
JSON is written.) -/
theorem roundtrip_amended (p : OmeroProject)
    (h1 : ∀ a ∈ p.annotations, a.1 ∉ projectMapperNamespaces)
    (h2 : ∀ d ∈ p.datasets, ∃ a, assayOfDataset d = .ok a) :
    ∃ inv q, packProject p = .ok inv ∧ importerSave inv none = .ok q ∧
      q.name = p.name ∧ q.description = p.description ∧
      q.datasets.length = p.datasets.length ∧
      ∃ st, inv.studies = [st] ∧ st.identifier = some (deriveIdentifier p.name) := by
  have hall : ∀ ns ∈ projectMapperNamespaces, annotationsForNs p.annotations ns = [] :=
    fun ns hn => annotationsForNs_eq_nil p.annotations ns
      (fun a ha heq => h1 a ha (heq ▸ hn))
  have hst := exportStudy_of_no_mapper_anns p hall
  obtain ⟨assays, hassays, hlen, hmem⟩ := mapEx_ok_of_forall assayOfDataset p.datasets h2
  have hpack : packProject p =
      .ok { studies := [{ title := some p.name, description := some p.description,
                          identifier := some (deriveIdentifier p.name),
                          comments := [(anchorName, "ISA:STUDY:STUDY")],
                          assays := assays }] } := by
    unfold packProject
    rw [hst, hassays]
  have hds : ∀ a ∈ assays, ∃ r, datasetFactorySave a = .ok r := by
    intro a ha
    obtain ⟨d, _, hfa⟩ := hmem a ha
    exact ⟨_, datasetSave_of_assayOk d a hfa⟩
  obtain ⟨ds, hdsave, hdlen, _⟩ := mapEx_ok_of_forall datasetFactorySave assays hds
  have himp := importerSave_single
    { title := some p.name, description := some p.description,
      identifier := some (deriveIdentifier p.name),
      comments := [(anchorName, "ISA:STUDY:STUDY")], assays := assays } ds hdsave
  refine ⟨_, _, hpack, himp, rfl, rfl, ?_, _, rfl, rfl⟩
  exact hdlen.trans hlen

/-- C7 (witness): the amended theorem applied to an annotation-free
project with one dataset. -/
theorem roundtrip_witness :
    ∃ inv q, packProject pPlain = .ok inv ∧ importerSave inv none = .ok q ∧
      q.name = pPlain.name ∧ q.description = pPlain.description ∧
      q.datasets.length = pPlain.datasets.length ∧
      ∃ st, inv.studies = [st] ∧ st.identifier = some (deriveIdentifier pPlain.name) := by
  apply roundtrip_amended pPlain
  · intro a ha
    simp [pPlain] at ha
  · intro d hd
    simp only [pPlain, List.mem_singleton] at hd
    subst hd
    exact ⟨_, rfl⟩

/-- C8: assay-identifier derivation (`name.lower().replace(" ", "-")`,
isa_mapping.py:303) is deterministic (it is a pure function of the display
name), maps `"My First Assay"` to `"my-first-assay"`, and is idempotent:
re-deriving from an already-derived string is a no-op. -/
theorem assay_identifier_derivation :
    (∀ s : String, deriveIdentifier s = deriveIdentifier s) ∧
    deriveIdentifier "My First Assay" = "my-first-assay" ∧
    (∀ s : String, deriveIdentifier (deriveIdentifier s) = deriveIdentifier s) := by
  refine ⟨fun s => rfl, by decide, fun s => ?_⟩
  rw [deriveIdentifier_eq_map s, deriveIdentifier_eq_map ⟨s.data.map lowerDashChar⟩]
  show String.mk ((s.data.map lowerDashChar).map lowerDashChar) = _
  rw [List.map_map]
  exact congrArg String.mk (List.map_congr_left fun c _ => lowerDashChar_idem c)

/-- C9: `DatasetFactory.save` requires a `comments` field containing an
entry named `identifier`: an absent comments field fails the assertion, a
comments list with no identifier entry fails fatally (the unbound
`dataset_name` local, an `UnboundLocalError`), and in both cases the
failure occurs before `DatasetI()` is built, so no dataset is persisted;
when the entry is present, the created dataset's display name is the value
of the first such entry. -/
theorem dataset_save_requires_identifier (d : AssayData) :
    (d.comments = none → datasetFactorySave d = .error .assertionError) ∧
    (∀ cs, d.comments = some cs → (∀ c ∈ cs, dictGet c "name" ≠ some "identifier") →
       datasetFactorySave d = .error .unboundLocalError) ∧
    (∀ cs c, d.comments = some cs →
       cs.find? (fun c => dictGet c "name" == some "identifier") = some c →
       datasetFactorySave d = .ok { name := dictGet c "value" }) := by
  refine ⟨?_, ?_, ?_⟩
  · intro h
    unfold datasetFactorySave
    rw [h]
  · intro cs hcs hnone
    unfold datasetFactorySave
    rw [hcs]
    dsimp only []
    have hfind : findIdentifierValue cs = none := by
      rw [findIdentifierValue_eq_find]
      rw [List.find?_eq_none.mpr ?_]
      · rfl
      · intro c hc
        simpa using hnone c hc
    rw [hfind]
  · intro cs c hcs hfind
    unfold datasetFactorySave
    rw [hcs]
    dsimp only []
    have hsome : findIdentifierValue cs = some (dictGet c "value") := by
      rw [findIdentifierValue_eq_find, hfind]
      rfl
    rw [hsome]

/-- C9 (witness): the theorem applied to an absent comments field, a
comments list without an identifier entry, and an assay fragment whose
identifier entry carries the value `my-assay-id`. -/
theorem dataset_save_requires_identifier_witness :
    datasetFactorySave { comments := none } = .error .assertionError ∧
    datasetFactorySave { comments := some [[("name", "x")]] } = .error .unboundLocalError ∧
    datasetFactorySave assayWithId = .ok { name := some "my-assay-id" } := by
  refine ⟨(dataset_save_requires_identifier { comments := none }).1 rfl, ?_, ?_⟩
  · exact (dataset_save_requires_identifier { comments := some [[("name", "x")]] }).2.1
      [[("name", "x")]] rfl (by decide)
  · exact (dataset_save_requires_identifier assayWithId).2.2
      [[("name", "identifier"), ("value", "my-assay-id")]]
      [("name", "identifier"), ("value", "my-assay-id")] rfl rfl

/-- C10: the ROI decode operation applied to an empty parsed ROI list: the
loop body never runs, no ROI record is passed to the update service, and
the function falls through to the implicit `return None`. -/
theorem roi_decode_empty_list (imageId : Nat) :
    import_rois_from_json [] imageId = ([], none) :=
  rfl

end OmeroIsa
